import Mathlib

/-!
Shallow embedding of the fraud-scoring repository
(`enhanced_fraud_scorecard_2025.py`, `fraud_pipeline_2025_with_scoring.py`,
`build_account_profiles.py`) and verification of the specification claims.

Conventions of the embedding:
* pandas/python floats are modelled as `ℚ` (except the logistic curve, which
  needs `Real.exp` and is modelled over `ℝ`);
* timestamps are an abstract integer clock (`ℤ`, measured in hours);
* a python `dict.get(k, d)` is `(List.lookup k).getD d`; a python set is a
  `List`/`Finset` with membership semantics;
* a fallible dataframe column access `df[c]` (KeyError when the column is
  absent) is an `Option`-valued lookup returning `none` on absence.
-/

namespace FraudSpec

/-- pandas `Series.clip(lo, hi)` applied pointwise: clamp `x` into `[lo, hi]`. -/
def clip {α : Type} [LinearOrder α] (x lo hi : α) : α :=
  min (max x lo) hi

/-- `band` as defined identically in both scripts
(`enhanced_fraud_scorecard_2025.py` lines 72-78,
`fraud_pipeline_2025_with_scoring.py` lines 33-36):
High Risk when `score >= 71`, Medium Risk when `score >= 41`, else Low Risk. -/
def band (score : ℚ) : String :=
  if score ≥ 71 then "High Risk"
  else if score ≥ 41 then "Medium Risk"
  else "Low Risk"

/-- Numeric rank of the risk tiers, taken from the spec's ordering
Low < Medium < High; used to state monotonicity of `band`. -/
def tier (b : String) : ℕ :=
  if b = "High Risk" then 2 else if b = "Medium Risk" then 1 else 0

namespace Scorecard

/-- Weight dictionary of `enhanced_fraud_scorecard_2025.py` (lines 14-23). -/
def ki_weights : List (String × ℚ) :=
  [("KI01_amt_deviation", 20),
   ("KI02_night_txn", 10),
   ("KI03_new_payee_high_amt", 30),
   ("KI04_burst_txns", 25),
   ("KI05_new_foreign_country", 40),
   ("KI06_new_acct_high_txn", 25),
   ("KI07_large_internal_transfer_no_dualauth", 30),
   ("KI08_payee_risk_low_history", 15)]

/-- Country risk table of `enhanced_fraud_scorecard_2025.py` (lines 8-11). -/
def country_risk : List (String × ℚ) :=
  [("USA", 5), ("UK", 5), ("Argentina", 10), ("Brazil", 20), ("Nigeria", 30),
   ("Russia", 30), ("CN", 25), ("IR", 30), ("NG", 30), ("KP", 30)]

/-- Python `table.get(c, 0)`: risk weight of a country code, `0` when the code
is not in the table (`enhanced_fraud_scorecard_2025.py` line 45). -/
def country_risk_get (table : List (String × ℚ)) (c : String) : ℚ :=
  (table.lookup c).getD 0

/-- `compute_ki05_score` (`enhanced_fraud_scorecard_2025.py` lines 40-46),
after the comma-splitting of the two history columns: given the set of
prior-period countries and current-period countries, sum the risk weights of
the new countries and scale by the diversity band of the prior set.
The table is a parameter (the script applies it to `country_risk`). -/
def compute_ki05_score (table : List (String × ℚ))
    (prev_countries curr_countries : Finset String) : ℚ :=
  let new_countries := curr_countries \ prev_countries
  let scaling : ℚ :=
    if prev_countries.card ≤ 2 then 1.2
    else if prev_countries.card ≤ 5 then 1.0 else 0.5
  (∑ c ∈ new_countries, country_risk_get table c) * scaling

/-- Score aggregation loop of `enhanced_fraud_scorecard_2025.py` (lines 60-66):
`raw_score` starts at 0, each catalog indicator adds `value × weight`, and the
continuous KI05 sub-score is added once at the end, with no weight. -/
def raw_score (weights : List (String × ℚ)) (ind : String → ℚ)
    (ki05_score : ℚ) : ℚ :=
  weights.foldl (fun acc kw => acc + ind kw.1 * kw.2) 0 + ki05_score

/-- Normalization of `enhanced_fraud_scorecard_2025.py` (line 69):
clip the raw score into `[0, 260]` and rescale to `[0, 100]`. -/
def normalized_score (raw : ℚ) : ℚ :=
  clip raw 0 260 / 260 * 100

end Scorecard

namespace Pipeline

/-- Weight configuration of `fraud_pipeline_2025_with_scoring.py` (lines 16-20). -/
def ki_weights : List (String × ℚ) :=
  [("KI01", 2.0), ("KI02", 1.5), ("KI03", 2.0), ("KI04", 2.0), ("KI05", 1.5),
   ("KI06", 2.0), ("KI07", 1.5), ("KI08", 1.5), ("KI09", 1.5), ("KI10", 1.5),
   ("KI11", 2.0), ("KI12", 2.0), ("KI14", 2.0), ("KI18", 1.0), ("KI19", 2.0)]

/-- Raw-score line of `compute_fraud_scores`
(`fraud_pipeline_2025_with_scoring.py` line 24):
`sum(df.get(ki, 0) * weight for ki, weight in ki_weights.items())`.
A dataframe's columns are modelled as a partial map from column name to value;
`df.get(ki, 0)` is total, substituting `0` for an absent column. -/
def df_raw_score (cols : String → Option ℚ) (weights : List (String × ℚ)) : ℚ :=
  (weights.map (fun kw => (cols kw.1).getD 0 * kw.2)).sum

/-- Minmax normalization of `compute_fraud_scores`
(`fraud_pipeline_2025_with_scoring.py` lines 26-27):
`((raw_score - min_score) / (max_score - min_score)).clip(0, 1) * 100`. -/
def minmax_normalized (raw min_score max_score : ℚ) : ℚ :=
  clip ((raw - min_score) / (max_score - min_score)) 0 1 * 100

/-- Logistic normalization of `compute_fraud_scores`
(`fraud_pipeline_2025_with_scoring.py` lines 28-29):
`(1 / (1 + np.exp(-0.1 * (raw_score - 5)))) * 100`. -/
noncomputable def logistic_normalized (raw : ℝ) : ℝ :=
  1 / (1 + Real.exp (-(0.1) * (raw - 5))) * 100

/-- Normalization dispatch of `compute_fraud_scores`
(`fraud_pipeline_2025_with_scoring.py` lines 25-31): the `minmax` and
`logistic` branches produce a value, any other method string raises
`ValueError("Unsupported normalization method")`, modelled as `Except.error`.
No validation of the score bounds appears anywhere in the function. -/
noncomputable def compute_fraud_scores_normalized (method : String)
    (min_score max_score raw : ℝ) : Except String ℝ :=
  if method = "minmax" then
    .ok (clip ((raw - min_score) / (max_score - min_score)) 0 1 * 100)
  else if method = "logistic" then
    .ok (1 / (1 + Real.exp (-(0.1) * (raw - 5))) * 100)
  else .error "Unsupported normalization method"

/-- Account behavioral profile row of `account_profiles_model.csv`
(`build_account_profiles.py` lines 14-16). -/
structure Profile where
  mean_amt : ℚ
  std_amt : ℚ
  typical_currency : String

/-- One transaction row of `transactions_2025.xlsx` as consumed by the loop of
`fraud_pipeline_2025_with_scoring.py` (lines 42-50).  The timestamp is an
abstract integer clock measured in hours; `hour` and `dayofweek` are the
calendar attributes the loop derives from the timestamp, carried here as
fields.  The upstream-engineered fields that the loop reads with
`txn.get(..., default)` are `Option`-valued: `none` models an absent field. -/
structure Txn where
  ACCOUNT_KEY : String
  PARTY_KEY : String
  REQUESTED_AMOUNT_US_INTL : ℚ
  TRANSACTION_LOCAL_DATE_TIME : ℤ
  hour : ℤ
  dayofweek : ℤ
  CHANNEL : String
  CURRENCY_CD : String
  activity_days_ago : Option ℤ
  txn_sum_24h : Option ℚ
  country_cd : Option String
  is_first_foreign_txn : Option Bool
  acct_creation_days_ago : Option ℤ
  txn_count_24h : Option ℤ
  unique_payees_24h : Option ℤ
  payee_usage_count : Option ℤ
  large_txns_2h : Option ℤ
  is_known_name_new_account : Option Bool
  approval_flag : Option Bool

/-- Per-account running context (`fraud_pipeline_2025_with_scoring.py`
lines 43-45): last transaction time, parties seen so far (a set, modelled as a
duplicate-free list), and the list of transaction times. -/
structure Context where
  last_txn_time : ℤ
  parties_seen : List String
  txn_times : List ℤ

/-- The indicator vector built by the loop (lines 62-76): one named 0/1 value
per key indicator of the catalog. -/
structure KIVector where
  KI01 : ℚ
  KI02 : ℚ
  KI03 : ℚ
  KI04 : ℚ
  KI05 : ℚ
  KI06 : ℚ
  KI07 : ℚ
  KI08 : ℚ
  KI09 : ℚ
  KI10 : ℚ
  KI11 : ℚ
  KI12 : ℚ
  KI14 : ℚ
  KI18 : ℚ
  KI19 : ℚ

/-- One output row of the loop (lines 78-82). -/
structure ResultRow where
  ACCOUNT_KEY : String
  PARTY_KEY : String
  REQUESTED_AMOUNT_US_INTL : ℚ
  TRANSACTION_LOCAL_DATE_TIME : ℤ
  kis : KIVector

/-- `account_profiles.get(acct, {'mean_amt': 0, 'std_amt': 1,
'typical_currency': currency})` (line 50). -/
def lookupProfile (profiles : List (String × Profile)) (t : Txn) : Profile :=
  match profiles.lookup t.ACCOUNT_KEY with
  | some p => p
  | none => { mean_amt := 0, std_amt := 1, typical_currency := t.CURRENCY_CD }

/-- Fresh context created for a first-seen account (lines 52-57):
`last_txn_time = now - timedelta(hours=2)`, empty parties, empty times. -/
def freshContext (now : ℤ) : Context :=
  { last_txn_time := now - 2, parties_seen := [], txn_times := [] }

/-- Context fetch for the current transaction: existing context if the account
was already seen, else a fresh one (lines 52-59). -/
def getContext (st : String → Option Context) (acct : String) (now : ℤ) :
    Context :=
  match st acct with
  | some c => c
  | none => freshContext now

/-- The indicator evaluations of the loop body (lines 62-76), one per line of
the source `kis` dictionary. -/
def evalKIs (profile : Profile) (context : Context) (t : Txn) : KIVector where
  KI01 := if |t.REQUESTED_AMOUNT_US_INTL - profile.mean_amt|
               > 2 * profile.std_amt then 1 else 0
  KI02 := if t.activity_days_ago.getD 0 > 30 then 1 else 0
  KI03 := if t.PARTY_KEY ∉ context.parties_seen
             ∧ t.REQUESTED_AMOUNT_US_INTL > 10000 then 1 else 0
  KI04 := if t.txn_sum_24h.getD 0 > 50000 then 1 else 0
  KI05 := if t.country_cd ∈ [some "IR", some "RU", some "NG", some "CN"]
             ∧ t.is_first_foreign_txn.getD false = true then 1 else 0
  KI06 := if t.acct_creation_days_ago.getD 100 ≤ 3
             ∧ t.txn_count_24h.getD 0 > 3 then 1 else 0
  KI07 := if t.unique_payees_24h.getD 0 > 3 then 1 else 0
  KI08 := if t.acct_creation_days_ago.getD 100 ≤ 7
             ∧ t.txn_count_24h.getD 0 > 2 then 1 else 0
  KI09 := if t.CHANNEL.toLower ∈ ["mobile", "web"]
             ∧ t.REQUESTED_AMOUNT_US_INTL > 5000 then 1 else 0
  KI10 := if t.payee_usage_count.getD 10 < 2
             ∧ t.REQUESTED_AMOUNT_US_INTL > 5000 then 1 else 0
  KI11 := if t.country_cd ∈ [some "IR", some "RU", some "NG", some "CN",
             some "KP"] then 1 else 0
  KI12 := if t.large_txns_2h.getD 0 > 2 then 1 else 0
  KI14 := if t.is_known_name_new_account.getD false = true then 1 else 0
  KI18 := if t.hour ∈ [0, 1, 2, 3, 4, 5] ∨ t.dayofweek ≥ 5 then 1 else 0
  KI19 := if t.REQUESTED_AMOUNT_US_INTL > 100000
             ∧ t.approval_flag.getD true = false then 1 else 0

/-- Context update at the end of the loop body (lines 84-86): runs exactly
once per transaction, strictly after the indicators were evaluated. -/
def updateContext (context : Context) (t : Txn) : Context :=
  { last_txn_time := t.TRANSACTION_LOCAL_DATE_TIME,
    parties_seen := context.parties_seen.insert t.PARTY_KEY,
    txn_times := context.txn_times ++ [t.TRANSACTION_LOCAL_DATE_TIME] }

/-- One iteration of the transaction loop (lines 42-86): fetch the context,
evaluate the indicators against it, emit the result row, then store the
updated context for the transaction's account. -/
def processTxn (profiles : List (String × Profile))
    (st : String → Option Context) (t : Txn) :
    (String → Option Context) × ResultRow :=
  let context := getContext st t.ACCOUNT_KEY t.TRANSACTION_LOCAL_DATE_TIME
  let profile := lookupProfile profiles t
  let row : ResultRow :=
    { ACCOUNT_KEY := t.ACCOUNT_KEY,
      PARTY_KEY := t.PARTY_KEY,
      REQUESTED_AMOUNT_US_INTL := t.REQUESTED_AMOUNT_US_INTL,
      TRANSACTION_LOCAL_DATE_TIME := t.TRANSACTION_LOCAL_DATE_TIME,
      kis := evalKIs profile context t }
  (fun a => if a = t.ACCOUNT_KEY then some (updateContext context t) else st a,
   row)

/-- The whole transaction loop over a list of transactions. -/
def processAll (profiles : List (String × Profile))
    (st : String → Option Context) : List Txn → List ResultRow
  | [] => []
  | t :: ts =>
      (processTxn profiles st t).2 ::
        processAll profiles (processTxn profiles st t).1 ts

/-- The account-context dictionary after processing a list of transactions. -/
def stateAfter (profiles : List (String × Profile))
    (st : String → Option Context) : List Txn → (String → Option Context)
  | [] => st
  | t :: ts => stateAfter profiles (processTxn profiles st t).1 ts

/-- Parties recorded so far for an account (empty when the account has no
context yet). -/
def partiesOf (st : String → Option Context) (a : String) : List String :=
  match st a with
  | some c => c.parties_seen
  | none => []

/-- The initial, empty account-context dictionary (line 13). -/
def emptyState : String → Option Context := fun _ => none

/-- Sort key of `df.sort_values(by=['ACCOUNT_KEY',
'TRANSACTION_LOCAL_DATE_TIME'])` (line 10): lexicographic order on the pair
(account key, timestamp). -/
def txnKeyLE (a b : Txn) : Prop :=
  a.ACCOUNT_KEY < b.ACCOUNT_KEY
  ∨ (a.ACCOUNT_KEY = b.ACCOUNT_KEY
     ∧ a.TRANSACTION_LOCAL_DATE_TIME ≤ b.TRANSACTION_LOCAL_DATE_TIME)

instance : DecidableRel txnKeyLE := fun a b => by
  unfold txnKeyLE; infer_instance

instance : IsTrans Txn txnKeyLE where
  trans := by
    intro a b c hab hbc
    rcases hab with h1 | ⟨e1, t1⟩ <;> rcases hbc with h2 | ⟨e2, t2⟩
    · exact Or.inl (lt_trans h1 h2)
    · exact Or.inl (by rw [← e2]; exact h1)
    · exact Or.inl (by rw [e1]; exact h2)
    · exact Or.inr ⟨e1.trans e2, le_trans t1 t2⟩

instance : IsTotal Txn txnKeyLE where
  total := by
    intro a b
    rcases lt_trichotomy a.ACCOUNT_KEY b.ACCOUNT_KEY with h | h | h
    · exact Or.inl (Or.inl h)
    · rcases le_total a.TRANSACTION_LOCAL_DATE_TIME
        b.TRANSACTION_LOCAL_DATE_TIME with ht | ht
      · exact Or.inl (Or.inr ⟨h, ht⟩)
      · exact Or.inr (Or.inr ⟨h.symm, ht⟩)
    · exact Or.inr (Or.inl h)

/-- `df.sort_values(by=['ACCOUNT_KEY', 'TRANSACTION_LOCAL_DATE_TIME'])`
(line 10), modelled as a stable sort by that key. -/
def sort_values (ts : List Txn) : List Txn :=
  List.insertionSort txnKeyLE ts

/-- The whole pipeline (lines 10-86): sort the input rows by account key and
timestamp, then run the transaction loop from the empty context dictionary. -/
def runPipeline (profiles : List (String × Profile)) (ts : List Txn) :
    List ResultRow :=
  processAll profiles emptyState (sort_values ts)

end Pipeline

namespace Scorecard

/-- KI04 of the vectorized script, per row
(`enhanced_fraud_scorecard_2025.py` line 37):
`(df['txn_count_24h'] > 4).astype(int)`.  The row's columns are a partial map;
`df[c]` on an absent column raises `KeyError`, modelled as `none`. -/
def KI04_burst_txns (row : List (String × ℚ)) : Option ℚ :=
  (row.lookup "txn_count_24h").map (fun x => if x > 4 then 1 else 0)

end Scorecard

/- ### Concrete inputs used by witnesses and counterexamples -/

/-- A sample transaction: branch transaction of 20000 for account ACC1 and
party P1 at clock time 1, with every upstream-engineered field absent. -/
def txnBase : Pipeline.Txn where
  ACCOUNT_KEY := "ACC1"
  PARTY_KEY := "P1"
  REQUESTED_AMOUNT_US_INTL := 20000
  TRANSACTION_LOCAL_DATE_TIME := 1
  hour := 10
  dayofweek := 2
  CHANNEL := "branch"
  CURRENCY_CD := "USD"
  activity_days_ago := none
  txn_sum_24h := none
  country_cd := none
  is_first_foreign_txn := none
  acct_creation_days_ago := none
  txn_count_24h := none
  unique_payees_24h := none
  payee_usage_count := none
  large_txns_2h := none
  is_known_name_new_account := none
  approval_flag := none

/-- The same account and party transacting again at clock time 2. -/
def txnLater : Pipeline.Txn :=
  { txnBase with TRANSACTION_LOCAL_DATE_TIME := 2 }

/-- A default profile and an empty context, for instantiating theorems. -/
def prof0 : Pipeline.Profile :=
  { mean_amt := 0, std_amt := 1, typical_currency := "USD" }

/-- An empty running context. -/
def ctx0 : Pipeline.Context :=
  { last_txn_time := 0, parties_seen := [], txn_times := [] }

/-- A dataframe with only a KI01 column, for instantiating C10. -/
def cols0 : String → Option ℚ :=
  fun k => if k = "KI01" then some 1 else none

/- ### Helper lemmas -/

/-- Unfolding the aggregation fold into a sum. -/
theorem foldl_raw_score (ind : String → ℚ) :
    ∀ (l : List (String × ℚ)) (a : ℚ),
      l.foldl (fun acc kw => acc + ind kw.1 * kw.2) a
        = a + (l.map (fun kw => kw.2 * ind kw.1)).sum := by
  intro l
  induction l with
  | nil => intro a; simp
  | cons kw l ih =>
      intro a
      simp only [List.foldl_cons, List.map_cons, List.sum_cons, ih]
      ring

/-- The code's `clip x 0 1` agrees with the spec's `clamp(x, 0, 1)`. -/
theorem clip_eq_clamp (x : ℚ) : clip x 0 1 = max 0 (min x 1) := by
  unfold clip
  simp only [min_def, max_def]
  split_ifs <;> linarith

/- ### Claims -/

/-- Claim C1: the raw score of the scorecard aggregation equals the weighted
sum of the boolean indicator values over the catalog, plus the continuous
country-risk sub-score added exactly once with coefficient 1 (unweighted);
in the concrete catalog the boolean companion KI05 carries weight 40 like any
other boolean indicator while the sub-score itself is unweighted. -/
theorem raw_score_spec :
    (∀ (weights : List (String × ℚ)) (ind : String → ℚ) (s : ℚ),
       Scorecard.raw_score weights ind s
         = (weights.map (fun kw => kw.2 * ind kw.1)).sum + s)
    ∧ (∀ (ind : String → ℚ) (s : ℚ),
       Scorecard.raw_score Scorecard.ki_weights ind s
         = 20 * ind "KI01_amt_deviation" + 10 * ind "KI02_night_txn"
           + 30 * ind "KI03_new_payee_high_amt" + 25 * ind "KI04_burst_txns"
           + 40 * ind "KI05_new_foreign_country"
           + 25 * ind "KI06_new_acct_high_txn"
           + 30 * ind "KI07_large_internal_transfer_no_dualauth"
           + 15 * ind "KI08_payee_risk_low_history" + s) := by
  constructor
  · intro weights ind s
    simp [Scorecard.raw_score, foldl_raw_score]
  · intro ind s
    simp [Scorecard.raw_score, Scorecard.ki_weights]
    ring

/-- Claim C2: the risk band is a pure step function of the normalized score
with lower-inclusive boundaries (High iff `71 ≤ s`, Medium iff `41 ≤ s < 71`,
Low iff `s < 41`, so `band 71 = High` and `band 41 = Medium`), and it is
monotone: a strictly smaller score is never in a higher tier. -/
theorem band_spec :
    (∀ s : ℚ,
       (band s = "High Risk" ↔ 71 ≤ s)
       ∧ (band s = "Medium Risk" ↔ 41 ≤ s ∧ s < 71)
       ∧ (band s = "Low Risk" ↔ s < 41))
    ∧ band 71 = "High Risk" ∧ band 41 = "Medium Risk"
    ∧ (∀ s₁ s₂ : ℚ, s₁ < s₂ → tier (band s₁) ≤ tier (band s₂)) := by
  refine ⟨?_, by norm_num [band], by norm_num [band], ?_⟩
  · intro s
    unfold band
    split_ifs with h1 h2 <;>
      refine ⟨⟨fun he => ?_, fun hs => ?_⟩, ⟨fun he => ?_, fun hs => ?_⟩,
        ⟨fun he => ?_, fun hs => ?_⟩⟩ <;>
      first | rfl | linarith | (exfalso; revert he; decide) |
        (exfalso; rcases hs with ⟨hs1, hs2⟩; linarith) |
        (exfalso; linarith) |
        (exact ⟨by linarith, by linarith⟩)
  · intro s₁ s₂ hlt
    unfold band
    split_ifs <;> first | decide | linarith

/-- Claim C3: under minmax normalization with `min_score < max_score`, the
normalized score is `clamp((raw − min) / (max − min), 0, 1) × 100`; it lies in
`[0, 100]`, is `0` at `raw = min_score`, and is `100` whenever
`raw ≥ max_score`. -/
theorem minmax_spec (raw min_score max_score : ℚ)
    (h : min_score < max_score) :
    Pipeline.minmax_normalized raw min_score max_score
      = max 0 (min ((raw - min_score) / (max_score - min_score)) 1) * 100
    ∧ 0 ≤ Pipeline.minmax_normalized raw min_score max_score
    ∧ Pipeline.minmax_normalized raw min_score max_score ≤ 100
    ∧ (raw = min_score → Pipeline.minmax_normalized raw min_score max_score = 0)
    ∧ (max_score ≤ raw →
        Pipeline.minmax_normalized raw min_score max_score = 100) := by
  have hd : 0 < max_score - min_score := by linarith
  refine ⟨by rw [Pipeline.minmax_normalized, clip_eq_clamp], ?_, ?_, ?_, ?_⟩
  · unfold Pipeline.minmax_normalized clip
    have h0 : (0:ℚ) ≤ max ((raw - min_score) / (max_score - min_score)) 0 :=
      le_max_right _ _
    have := min_le_right (max ((raw - min_score) / (max_score - min_score)) 0) 1
    nlinarith [le_min (le_max_right ((raw - min_score) / (max_score - min_score)) 0) (by norm_num : (0:ℚ) ≤ 1)]
  · unfold Pipeline.minmax_normalized clip
    have := min_le_right (max ((raw - min_score) / (max_score - min_score)) 0) 1
    linarith
  · intro he
    unfold Pipeline.minmax_normalized clip
    rw [he, sub_self, zero_div]
    norm_num
  · intro hge
    unfold Pipeline.minmax_normalized clip
    have h1 : (1:ℚ) ≤ (raw - min_score) / (max_score - min_score) := by
      rw [le_div_iff₀ hd]
      linarith
    rw [max_eq_left (by linarith), min_eq_right h1]
    norm_num

/-- Witness for C3 at `raw = 30`, bounds `0 < 20`: the normalized score is
clamped to 100. -/
theorem minmax_spec_witness :
    (0:ℚ) < 20 ∧ Pipeline.minmax_normalized 30 0 20 = 100 :=
  ⟨by norm_num, (minmax_spec 30 0 20 (by norm_num)).2.2.2.2 (by norm_num)⟩

/-- Witness for C2's monotonicity hypothesis at `s₁ = 10 < s₂ = 80`. -/
theorem band_spec_witness :
    (10:ℚ) < 80 ∧ tier (band 10) ≤ tier (band 80) :=
  ⟨by norm_num, band_spec.2.2.2 10 80 (by norm_num)⟩

/-- Claim C4: logistic normalization equals
`100 / (1 + e^(−k·(raw − midpoint)))` with `k = 0.1`, `midpoint = 5`; it lies
strictly within `(0, 100)` and is strictly increasing in the raw score. -/
theorem logistic_spec :
    (∀ raw : ℝ,
      Pipeline.logistic_normalized raw
          = 100 / (1 + Real.exp (-(0.1) * (raw - 5)))
      ∧ 0 < Pipeline.logistic_normalized raw
      ∧ Pipeline.logistic_normalized raw < 100)
    ∧ ∀ r₁ r₂ : ℝ, r₁ < r₂ →
        Pipeline.logistic_normalized r₁ < Pipeline.logistic_normalized r₂ := by
  have key : ∀ raw : ℝ,
      Pipeline.logistic_normalized raw
        = 100 / (1 + Real.exp (-(0.1) * (raw - 5))) := by
    intro raw
    unfold Pipeline.logistic_normalized
    rw [div_mul_eq_mul_div, one_mul]
  constructor
  · intro raw
    have he := Real.exp_pos (-(0.1) * (raw - 5))
    refine ⟨key raw, ?_, ?_⟩
    · rw [key]
      positivity
    · rw [key]
      have h100 : (100:ℝ) / 1 = 100 := by norm_num
      calc 100 / (1 + Real.exp (-(0.1) * (raw - 5))) < 100 / 1 :=
            div_lt_div_of_pos_left (by norm_num) (by norm_num) (by linarith)
        _ = 100 := h100
  · intro r₁ r₂ hlt
    rw [key, key]
    have hexp : Real.exp (-(0.1) * (r₂ - 5)) < Real.exp (-(0.1) * (r₁ - 5)) :=
      Real.exp_lt_exp.mpr (by nlinarith)
    have h2 := Real.exp_pos (-(0.1) * (r₂ - 5))
    exact div_lt_div_of_pos_left (by norm_num) (by linarith) (by linarith)

/-- Witness for C4: strict monotonicity and positivity at raw scores 0 < 1. -/
theorem logistic_spec_witness :
    (0:ℝ) < 1
    ∧ Pipeline.logistic_normalized 0 < Pipeline.logistic_normalized 1 :=
  ⟨by norm_num, logistic_spec.2 0 1 (by norm_num)⟩

/-- Claim C6: the dynamic country-risk sub-score is the sum of risk weights
over (current minus prior) countries scaled by the prior-country diversity
band (`≤ 2 → ×1.2`, `≤ 5 → ×1.0`, else `×0.5`); an unknown country code has
weight 0; with prior countries `{A, B}` and one new country of weight 40 the
sub-score is `40 × 1.2 = 48`. -/
theorem ki05_spec :
    (∀ (table : List (String × ℚ)) (prev curr : Finset String),
      Scorecard.compute_ki05_score table prev curr
        = (∑ c ∈ curr \ prev, Scorecard.country_risk_get table c)
          * (if prev.card ≤ 2 then 1.2
             else if prev.card ≤ 5 then 1.0 else 0.5))
    ∧ (∀ (table : List (String × ℚ)) (c : String),
        table.lookup c = none → Scorecard.country_risk_get table c = 0)
    ∧ Scorecard.compute_ki05_score [("C", 40)] {"A", "B"} {"A", "B", "C"}
        = 48 := by
  refine ⟨fun table prev curr => rfl, ?_, ?_⟩
  · intro table c h
    unfold Scorecard.country_risk_get
    rw [h]
    rfl
  · have hdiff : ({"A", "B", "C"} : Finset String) \ {"A", "B"} = {"C"} := by
      ext x
      simp only [Finset.mem_sdiff, Finset.mem_insert, Finset.mem_singleton]
      constructor
      · rintro ⟨(rfl | rfl | rfl), hx⟩
        · exact absurd (Or.inl rfl) hx
        · exact absurd (Or.inr rfl) hx
        · rfl
      · rintro rfl
        refine ⟨Or.inr (Or.inr rfl), ?_⟩
        rintro (h | h) <;> exact absurd h (by decide)
    have hcard : ({"A", "B"} : Finset String).card = 2 := by
      rw [Finset.card_insert_of_not_mem (by simp), Finset.card_singleton]
    rw [show Scorecard.compute_ki05_score [("C", 40)] {"A", "B"} {"A", "B", "C"}
          = (∑ c ∈ ({"A", "B", "C"} : Finset String) \ {"A", "B"},
              Scorecard.country_risk_get [("C", 40)] c)
            * (if ({"A", "B"} : Finset String).card ≤ 2 then 1.2
               else if ({"A", "B"} : Finset String).card ≤ 5 then 1.0 else 0.5)
        from rfl, hdiff, hcard, Finset.sum_singleton]
    norm_num [Scorecard.country_risk_get, List.lookup]

/-- Witness for C6's unknown-code hypothesis: a code absent from the table
gets weight 0. -/
theorem ki05_spec_witness :
    List.lookup "ZZ" [("C", (40:ℚ))] = none
    ∧ Scorecard.country_risk_get [("C", 40)] "ZZ" = 0 :=
  ⟨rfl, ki05_spec.2.1 [("C", 40)] "ZZ" rfl⟩

/- ### Helper lemmas for the transaction loop -/

/-- The parties of the fetched context are the parties recorded for the
account (empty on first sight). -/
theorem getContext_parties (st : String → Option Pipeline.Context)
    (a : String) (now : ℤ) :
    (Pipeline.getContext st a now).parties_seen = Pipeline.partiesOf st a := by
  unfold Pipeline.getContext Pipeline.partiesOf Pipeline.freshContext
  cases st a <;> rfl

/-- Effect of one loop iteration on the recorded parties: the transaction's
party is added for its account, other accounts are untouched. -/
theorem partiesOf_processTxn (profiles : List (String × Pipeline.Profile))
    (st : String → Option Pipeline.Context) (t : Pipeline.Txn) (a : String) :
    Pipeline.partiesOf (Pipeline.processTxn profiles st t).1 a
      = if a = t.ACCOUNT_KEY
          then (Pipeline.partiesOf st t.ACCOUNT_KEY).insert t.PARTY_KEY
          else Pipeline.partiesOf st a := by
  have hL : Pipeline.partiesOf (Pipeline.processTxn profiles st t).1 a
      = if a = t.ACCOUNT_KEY
          then List.insert t.PARTY_KEY
            (Pipeline.getContext st t.ACCOUNT_KEY
              t.TRANSACTION_LOCAL_DATE_TIME).parties_seen
          else Pipeline.partiesOf st a := by
    by_cases h : a = t.ACCOUNT_KEY
    · simp [Pipeline.processTxn, Pipeline.partiesOf, Pipeline.updateContext, h]
    · simp [Pipeline.processTxn, Pipeline.partiesOf, h]
  rw [hL, getContext_parties]

/-- The parties recorded after processing a stream are exactly the initial
ones plus the parties of the stream's transactions for that account. -/
theorem mem_partiesOf_stateAfter (profiles : List (String × Pipeline.Profile))
    (p a : String) :
    ∀ (ts : List Pipeline.Txn) (st : String → Option Pipeline.Context),
      p ∈ Pipeline.partiesOf (Pipeline.stateAfter profiles st ts) a
        ↔ p ∈ Pipeline.partiesOf st a
          ∨ ∃ t ∈ ts, t.ACCOUNT_KEY = a ∧ t.PARTY_KEY = p := by
  intro ts
  induction ts with
  | nil =>
      intro st
      simp [Pipeline.stateAfter]
  | cons t ts ih =>
      intro st
      rw [show Pipeline.stateAfter profiles st (t :: ts)
            = Pipeline.stateAfter profiles (Pipeline.processTxn profiles st t).1
                ts from rfl,
          ih, partiesOf_processTxn]
      by_cases h : a = t.ACCOUNT_KEY
      · subst h
        rw [if_pos rfl]
        simp only [List.mem_insert_iff, List.mem_cons]
        constructor
        · rintro ((hp | hp) | ⟨t', ht', he, hp⟩)
          · exact Or.inr ⟨t, Or.inl rfl, rfl, hp.symm⟩
          · exact Or.inl hp
          · exact Or.inr ⟨t', Or.inr ht', he, hp⟩
        · rintro (hp | ⟨t', (ht' | ht'), he, hp⟩)
          · exact Or.inl (Or.inr hp)
          · subst ht'
            exact Or.inl (Or.inl hp.symm)
          · exact Or.inr ⟨t', ht', he, hp⟩
      · rw [if_neg h]
        simp only [List.mem_cons]
        constructor
        · rintro (hp | ⟨t', ht', he, hp⟩)
          · exact Or.inl hp
          · exact Or.inr ⟨t', Or.inr ht', he, hp⟩
        · rintro (hp | ⟨t', (ht' | ht'), he, hp⟩)
          · exact Or.inl hp
          · subst ht'
            exact absurd he.symm h
          · exact Or.inr ⟨t', ht', he, hp⟩

/-- The loop over an appended stream is the loop over the first part followed
by the loop over the second, resumed from the intermediate context state. -/
theorem processAll_append (profiles : List (String × Pipeline.Profile)) :
    ∀ (l₁ l₂ : List Pipeline.Txn) (st : String → Option Pipeline.Context),
      Pipeline.processAll profiles st (l₁ ++ l₂)
        = Pipeline.processAll profiles st l₁
          ++ Pipeline.processAll profiles
              (Pipeline.stateAfter profiles st l₁) l₂ := by
  intro l₁
  induction l₁ with
  | nil => intro l₂ st; rfl
  | cons t l₁ ih =>
      intro l₂ st
      simp [Pipeline.processAll, Pipeline.stateAfter, ih]

/-- The loop emits exactly one row per transaction. -/
theorem length_processAll (profiles : List (String × Pipeline.Profile)) :
    ∀ (ts : List Pipeline.Txn) (st : String → Option Pipeline.Context),
      (Pipeline.processAll profiles st ts).length = ts.length := by
  intro ts
  induction ts with
  | nil => intro st; rfl
  | cons t ts ih =>
      intro st
      simp [Pipeline.processAll, ih]

/-- The row emitted for the transaction at position `pre.length` is the one
computed from the context state reached after the prefix `pre`. -/
theorem processAll_row (profiles : List (String × Pipeline.Profile))
    (pre : List Pipeline.Txn) (t : Pipeline.Txn) (post : List Pipeline.Txn)
    (st : String → Option Pipeline.Context) (f : Pipeline.ResultRow → ℚ) :
    ((Pipeline.processAll profiles st (pre ++ t :: post)).map f)[pre.length]?
      = some (f (Pipeline.processTxn profiles
          (Pipeline.stateAfter profiles st pre) t).2) := by
  rw [processAll_append, List.map_append,
    List.getElem?_append_right (by simp [length_processAll])]
  simp [length_processAll, Pipeline.processAll]

/-- Claim C5: for any account stream, a party appearing for the first time
for that account with amount above 10000 makes KI03 evaluate to 1, and any
later transaction of the same account with the same party (and amount) makes
KI03 evaluate to 0, the context being updated once per transaction after
evaluation. -/
theorem new_payee_spec :
    (∀ (profiles : List (String × Pipeline.Profile)) (pre : List Pipeline.Txn)
        (t : Pipeline.Txn) (post : List Pipeline.Txn),
      (∀ t' ∈ pre, t'.ACCOUNT_KEY = t.ACCOUNT_KEY →
        t'.PARTY_KEY ≠ t.PARTY_KEY) →
      t.REQUESTED_AMOUNT_US_INTL > 10000 →
      ((Pipeline.processAll profiles Pipeline.emptyState (pre ++ t :: post)).map
          (fun r => r.kis.KI03))[pre.length]? = some 1)
    ∧ (∀ (profiles : List (String × Pipeline.Profile))
        (pre : List Pipeline.Txn) (t₁ : Pipeline.Txn) (mid : List Pipeline.Txn)
        (t₂ : Pipeline.Txn) (post : List Pipeline.Txn),
      t₂.ACCOUNT_KEY = t₁.ACCOUNT_KEY → t₂.PARTY_KEY = t₁.PARTY_KEY →
      t₂.REQUESTED_AMOUNT_US_INTL = t₁.REQUESTED_AMOUNT_US_INTL →
      ((Pipeline.processAll profiles Pipeline.emptyState
          (pre ++ t₁ :: (mid ++ t₂ :: post))).map
          (fun r => r.kis.KI03))[(pre ++ t₁ :: mid).length]? = some 0) := by
  constructor
  · intro profiles pre t post hnew hamt
    rw [processAll_row]
    refine congrArg some ?_
    show (if t.PARTY_KEY ∉ (Pipeline.getContext
          (Pipeline.stateAfter profiles Pipeline.emptyState pre) t.ACCOUNT_KEY
          t.TRANSACTION_LOCAL_DATE_TIME).parties_seen
        ∧ t.REQUESTED_AMOUNT_US_INTL > 10000 then (1:ℚ) else 0) = 1
    rw [if_pos]
    refine ⟨?_, hamt⟩
    rw [getContext_parties]
    intro hmem
    rw [mem_partiesOf_stateAfter] at hmem
    rcases hmem with hmem | ⟨t', ht', he, hp⟩
    · simp [Pipeline.partiesOf, Pipeline.emptyState] at hmem
    · exact hnew t' ht' he hp
  · intro profiles pre t₁ mid t₂ post hacc hparty hamt
    have hl : pre ++ t₁ :: (mid ++ t₂ :: post)
        = (pre ++ t₁ :: mid) ++ t₂ :: post := by
      simp
    rw [hl, processAll_row]
    refine congrArg some ?_
    show (if t₂.PARTY_KEY ∉ (Pipeline.getContext
          (Pipeline.stateAfter profiles Pipeline.emptyState (pre ++ t₁ :: mid))
          t₂.ACCOUNT_KEY t₂.TRANSACTION_LOCAL_DATE_TIME).parties_seen
        ∧ t₂.REQUESTED_AMOUNT_US_INTL > 10000 then (1:ℚ) else 0) = 0
    rw [if_neg]
    rintro ⟨hnot, _⟩
    apply hnot
    rw [getContext_parties, mem_partiesOf_stateAfter]
    exact Or.inr ⟨t₁, by simp, hacc.symm, hparty.symm⟩

/-- Witness for C5: party P1 of account ACC1 transacting 20000 is flagged by
KI03 on first sight and not flagged on its second transaction. -/
theorem new_payee_spec_witness :
    (txnBase.REQUESTED_AMOUNT_US_INTL > 10000
      ∧ ((Pipeline.processAll [] Pipeline.emptyState
            ([] ++ txnBase :: [])).map (fun r => r.kis.KI03))[(0:ℕ)]?
          = some 1)
    ∧ ((Pipeline.processAll [] Pipeline.emptyState
          ([] ++ txnBase :: ([] ++ txnLater :: []))).map
          (fun r => r.kis.KI03))[(1:ℕ)]? = some 0 :=
  ⟨⟨by norm_num [txnBase],
    new_payee_spec.1 [] [] txnBase [] (by simp) (by norm_num [txnBase])⟩,
   new_payee_spec.2 [] [] txnBase [] txnLater [] rfl rfl rfl⟩

/-- Counterexample for C7: an input whose two transactions of account ACC1
arrive with decreasing timestamps (2 then 1) is not rejected: the pipeline
silently reorders it and scores both rows. -/
theorem out_of_order_cex :
    (Pipeline.runPipeline [] [txnLater, txnBase]).length = 2
    ∧ (Pipeline.runPipeline [] [txnLater, txnBase]).map
        (fun r => r.TRANSACTION_LOCAL_DATE_TIME) = [1, 2] := by
  have hnot : ¬ Pipeline.txnKeyLE txnLater txnBase := by
    rintro (h | ⟨-, ht⟩)
    · exact absurd h (lt_irrefl _)
    · exact absurd ht (by decide)
  have hsort : Pipeline.sort_values [txnLater, txnBase] = [txnBase, txnLater] := by
    simp [Pipeline.sort_values, List.insertionSort, List.orderedInsert, hnot]
  rw [Pipeline.runPipeline, hsort]
  exact ⟨rfl, rfl⟩

/-- Claim C7 as amended: the pipeline never rejects out-of-order input;
instead it first sorts all transactions by (account key, timestamp), so each
account's transactions are processed in non-decreasing timestamp order, and
every transaction is scored (one output row per input row). -/
theorem out_of_order_amended :
    ∀ (profiles : List (String × Pipeline.Profile)) (ts : List Pipeline.Txn),
      (Pipeline.runPipeline profiles ts).length = ts.length
      ∧ (Pipeline.sort_values ts).Pairwise
          (fun a b => a.ACCOUNT_KEY = b.ACCOUNT_KEY →
            a.TRANSACTION_LOCAL_DATE_TIME ≤ b.TRANSACTION_LOCAL_DATE_TIME) := by
  intro profiles ts
  constructor
  · rw [Pipeline.runPipeline, length_processAll, Pipeline.sort_values,
      List.length_insertionSort]
  · have hs := List.sorted_insertionSort Pipeline.txnKeyLE ts
    refine hs.imp ?_
    intro a b hab heq
    rcases hab with h | ⟨_, ht⟩
    · rw [heq] at h
      exact absurd h (lt_irrefl _)
    · exact ht

/-- Counterexample for C8: `compute_fraud_scores` does not raise on invalid
score bounds: with `min_score = max_score = 5` the minmax branch still
returns a value. -/
theorem config_error_cex :
    (Pipeline.compute_fraud_scores_normalized "minmax" 5 5 10).isOk = true := by
  rw [Pipeline.compute_fraud_scores_normalized, if_pos rfl]
  rfl

/-- Claim C8 as amended: score aggregation raises its configuration error
exactly when the normalization mode is unsupported; invalid score bounds
(`max_score ≤ min_score`) are not detected and never raise, so the two
supported modes never raise regardless of the bounds. -/
theorem config_error_amended :
    ∀ (method : String) (min_score max_score raw : ℝ),
      ((Pipeline.compute_fraud_scores_normalized method min_score max_score
          raw).isOk = true
        ↔ (method = "minmax" ∨ method = "logistic")) := by
  intro method mn mx raw
  unfold Pipeline.compute_fraud_scores_normalized
  split_ifs with h1 h2
  · simp [h1, Except.isOk, Except.toBool]
  · simp [h2, Except.isOk, Except.toBool]
  · simp [h1, h2, Except.isOk, Except.toBool]

/-- Counterexample for C9: in the vectorized scorecard script, the burst
indicator reads the rolling-count column directly, so a row without
`txn_count_24h` is an error (`KeyError`, modelled as `none`), not a neutral
default. -/
theorem missing_field_cex : Scorecard.KI04_burst_txns [] = none := rfl

/-- Claim C9 as amended: in the transaction-loop pipeline each
upstream-engineered field is read with a neutral default, so its absence is
never an error and the missing field alone never makes the indicator
evaluate to 1; the vectorized scorecard script, by contrast, errors on a
missing engineered column. -/
theorem missing_field_amended :
    ∀ (profile : Pipeline.Profile) (context : Pipeline.Context)
      (t : Pipeline.Txn),
      (t.activity_days_ago = none →
        (Pipeline.evalKIs profile context t).KI02 = 0)
      ∧ (t.txn_sum_24h = none → (Pipeline.evalKIs profile context t).KI04 = 0)
      ∧ (t.country_cd = none →
          (Pipeline.evalKIs profile context t).KI05 = 0
          ∧ (Pipeline.evalKIs profile context t).KI11 = 0)
      ∧ (t.is_first_foreign_txn = none →
          (Pipeline.evalKIs profile context t).KI05 = 0)
      ∧ (t.acct_creation_days_ago = none →
          (Pipeline.evalKIs profile context t).KI06 = 0
          ∧ (Pipeline.evalKIs profile context t).KI08 = 0)
      ∧ (t.txn_count_24h = none →
          (Pipeline.evalKIs profile context t).KI06 = 0
          ∧ (Pipeline.evalKIs profile context t).KI08 = 0)
      ∧ (t.unique_payees_24h = none →
          (Pipeline.evalKIs profile context t).KI07 = 0)
      ∧ (t.payee_usage_count = none →
          (Pipeline.evalKIs profile context t).KI10 = 0)
      ∧ (t.large_txns_2h = none →
          (Pipeline.evalKIs profile context t).KI12 = 0)
      ∧ (t.is_known_name_new_account = none →
          (Pipeline.evalKIs profile context t).KI14 = 0)
      ∧ (t.approval_flag = none →
          (Pipeline.evalKIs profile context t).KI19 = 0) := by
  intro profile context t
  refine ⟨fun h => ?_, fun h => ?_, fun h => ⟨?_, ?_⟩, fun h => ?_,
    fun h => ⟨?_, ?_⟩, fun h => ⟨?_, ?_⟩, fun h => ?_, fun h => ?_,
    fun h => ?_, fun h => ?_, fun h => ?_⟩ <;>
    simp [Pipeline.evalKIs, h]

/-- Witness for C9 at a transaction with every engineered field absent: the
indicators that read those fields all evaluate to 0. -/
theorem missing_field_witness :
    txnBase.activity_days_ago = none
    ∧ (Pipeline.evalKIs prof0 ctx0 txnBase).KI02 = 0
    ∧ (Pipeline.evalKIs prof0 ctx0 txnBase).KI04 = 0
    ∧ (Pipeline.evalKIs prof0 ctx0 txnBase).KI06 = 0
    ∧ (Pipeline.evalKIs prof0 ctx0 txnBase).KI10 = 0
    ∧ (Pipeline.evalKIs prof0 ctx0 txnBase).KI19 = 0 :=
  ⟨rfl,
   (missing_field_amended prof0 ctx0 txnBase).1 rfl,
   (missing_field_amended prof0 ctx0 txnBase).2.1 rfl,
   ((missing_field_amended prof0 ctx0 txnBase).2.2.2.2.1 rfl).1,
   (missing_field_amended prof0 ctx0 txnBase).2.2.2.2.2.2.2.1 rfl,
   (missing_field_amended prof0 ctx0 txnBase).2.2.2.2.2.2.2.2.2.2 rfl⟩

/-- Claim C10: an indicator named in the weight catalog but absent from the
input rows contributes exactly 0 to the raw score of `compute_fraud_scores`
(no lookup failure), and the raw score equals the one computed over the
present indicators alone. -/
theorem absent_indicator_spec :
    (∀ (cols : String → Option ℚ) (weights : List (String × ℚ)),
      Pipeline.df_raw_score cols weights
        = Pipeline.df_raw_score cols
            (weights.filter (fun kw => (cols kw.1).isSome)))
    ∧ (∀ (cols : String → Option ℚ) (k : String) (w : ℚ)
        (weights : List (String × ℚ)), cols k = none →
      (cols k).getD 0 * w = 0
      ∧ Pipeline.df_raw_score cols ((k, w) :: weights)
          = Pipeline.df_raw_score cols weights) := by
  constructor
  · intro cols weights
    induction weights with
    | nil => rfl
    | cons kw ws ih =>
        simp only [Pipeline.df_raw_score] at ih ⊢
        cases h : cols kw.1 with
        | none => simp [List.filter_cons, h, ih]
        | some v => simp [List.filter_cons, h, ih]
  · intro cols k w weights h
    refine ⟨by simp [h], ?_⟩
    simp [Pipeline.df_raw_score, h]

/-- Witness for C10: adding the absent indicator KI13 to the catalog leaves
the raw score unchanged. -/
theorem absent_indicator_witness :
    cols0 "KI13" = none
    ∧ Pipeline.df_raw_score cols0 (("KI13", 2) :: Pipeline.ki_weights)
        = Pipeline.df_raw_score cols0 Pipeline.ki_weights :=
  ⟨rfl, (absent_indicator_spec.2 cols0 "KI13" 2 Pipeline.ki_weights rfl).2⟩

end FraudSpec
